import Mathlib

/-!
Shallow embedding of the Plant-Cam snapshot utility (src/src/main.rs).

The program is a single linear pipeline:
config load → device selection → camera open → stream open → frame capture
→ crop → output-path construction → directory creation → local JPEG save
→ read-back → object-store PUT.

External collaborators (camera backend, JPEG codec, filesystem, S3 client,
TOML parser, clock) are modelled as oracles supplied in an `Env` record;
the repository's own decision logic (`get_config`, `get_camera_index`,
`get_output_path`, the crop call and the upload-key construction in `main`)
is translated directly from the Rust source.

Field names follow the source, except that the two fields whose Rust names
end in a reserved word of this development are shortened: `output_prefix`
becomes `output_pfx` and `r2_project_prefix` becomes `r2_project_pfx`.
(The source's `r2_accound_id` typo is kept as-is.)
-/

/-- The `Config` struct of main.rs (lines 49-67), with the documented
defaults of `impl Default for Config` reproduced below as `defaultConfig`.
Machine integers `u32`/`usize` are modelled as `Nat` (none of the modelled
operations can overflow a `u32` in the scenarios the claims quantify over,
and the source performs no wrapping arithmetic on them). -/
structure Config where
  camera_id : String
  camera_width : Nat
  camera_height : Nat
  camera_frame_rate : Nat
  output_dir : String
  output_pfx : String
  crop_x : Nat
  crop_y : Nat
  crop_width : Nat
  crop_height : Nat
  no_default_camera : Bool
  r2_accound_id : String
  r2_bucket_name : String
  r2_access_key_id : String
  r2_secret_access_key : String
  r2_project_pfx : String
  deriving Repr, DecidableEq

/-- `impl Default for Config` (main.rs lines 69-90). -/
def defaultConfig : Config where
  camera_id := ""
  camera_width := 640
  camera_height := 480
  camera_frame_rate := 30
  output_dir := "pictures"
  output_pfx := ""
  crop_x := 0
  crop_y := 0
  crop_width := 640
  crop_height := 480
  no_default_camera := true
  r2_accound_id := ""
  r2_bucket_name := ""
  r2_access_key_id := ""
  r2_secret_access_key := ""
  r2_project_pfx := "plant-cam/"

/-- One device descriptor as used by `get_camera_index`: nokhwa's
`CameraInfo` exposes `index()` (a `usize` assigned by enumeration),
`human_name()` and the metadata string `misc()` that the matching loop
inspects. -/
structure CameraInfo where
  index : Nat
  human_name : String
  misc : String
  deriving Repr, DecidableEq

/-- Per-character lowercasing of a string; models Rust's
`str::to_lowercase` as used on both sides of the match in
`get_camera_index` (simple per-char lowering, faithful on ASCII camera
identifiers and metadata). -/
def lowerStr (s : String) : String := ⟨s.data.map Char.toLower⟩

/-- `p` is a leading segment of `l` (character lists). -/
def leadSeg : List Char → List Char → Bool
  | [], _ => true
  | _ :: _, [] => false
  | p :: ps, q :: qs => p == q && leadSeg ps qs

/-- `pat` occurs contiguously somewhere in `hay`; the substring test
behind Rust's `str::contains`. -/
def subAt (pat : List Char) : List Char → Bool
  | [] => leadSeg pat []
  | q :: qs => leadSeg pat (q :: qs) || subAt pat qs

/-- Rust's `hay.contains(pat)`: `pat` is a contiguous substring of `hay`. -/
def strContains (hay pat : String) : Bool := subAt pat.data hay.data

/-- The per-device test of the loop body in `get_camera_index` (main.rs
line 106): `camera.misc().to_lowercase().contains(&config.camera_id.to_lowercase())`. -/
def matchesId (config : Config) (c : CameraInfo) : Bool :=
  strContains (lowerStr c.misc) (lowerStr config.camera_id)

/-- The `for camera in cameras.iter()` scan of `get_camera_index`
(main.rs lines 105-110): first device, in enumeration order, whose
metadata matches. -/
def findMatch (config : Config) : List CameraInfo → Option CameraInfo
  | [] => none
  | c :: rest =>
    if matchesId config c then some c else findMatch config rest

/-- The fatal `panic!("Could not find camera with id {}")` of
`get_camera_index` (main.rs line 113). -/
inductive SelectError where
  | deviceNotFound : String → SelectError
  deriving Repr, DecidableEq

/-- Outcome of device selection: the returned `usize` index, plus whether
the warning-fallback branch (main.rs lines 115-116) was taken. -/
structure Selection where
  index : Nat
  warned : Bool
  deriving Repr, DecidableEq

/-- `get_camera_index` (main.rs lines 104-117). Returns the stored
`camera.index()` of the first matching device; on no match it panics
(modelled as `.error`) when `no_default_camera` is set, otherwise logs a
warning and returns index 0. -/
def get_camera_index (config : Config) (cameras : List CameraInfo) :
    Except SelectError Selection :=
  match findMatch config cameras with
  | some c => .ok ⟨c.index, false⟩
  | none =>
    if config.no_default_camera then
      .error (.deviceNotFound config.camera_id)
    else
      .ok ⟨0, true⟩

/-- An in-memory raster frame: dimensions plus a pixel lookup (pixel
values abstracted as `Nat`). Models the `ImageBuffer` the camera backend
delivers and the buffer `crop_imm(..).to_image()` produces. -/
structure Image where
  width : Nat
  height : Nat
  pixel : Nat → Nat → Nat

/-- The clamping performed by `image::imageops::crop_imm` before taking
the sub-view (the crate's `crop_dimms` helper): out-of-range `x`/`y` are
clamped to the frame, and the requested extent is clamped to what remains.
Returns `(x, y, width, height)` of the actual sub-rectangle. -/
def crop_dimms (iw ih x y width height : Nat) : Nat × Nat × Nat × Nat :=
  let x' := min x iw
  let y' := min y ih
  let height' := min height (ih - y')
  let width' := min width (iw - x')
  (x', y', width', height')

/-- `crop_imm(&frame, x, y, w, h).to_image()` (main.rs line 29): a pure
pixel-region extraction of the clamped rectangle, output pixel `(i, j)`
reading source pixel `(x'+i, y'+j)`. -/
def crop_to_image (frame : Image) (x y w h : Nat) : Image :=
  match crop_dimms frame.width frame.height x y w h with
  | (x', y', w', h') => ⟨w', h', fun i j => frame.pixel (x' + i) (y' + j)⟩

/-- A wall-clock local time, to minute-and-below granularity; the result
of `Local::now()`. -/
structure LocalTime where
  year : Nat
  month : Nat
  day : Nat
  hour : Nat
  minute : Nat
  second : Nat
  deriving Repr, DecidableEq

/-- Zero-pad a number to (at least) two digits: chrono's `%m`, `%d`,
`%H`, `%M` specifiers. -/
def pad2 (n : Nat) : String :=
  if n < 10 then "0" ++ toString n else toString n

/-- Zero-pad a year to (at least) four digits: chrono's `%Y`. -/
def pad4 (n : Nat) : String :=
  if n < 10 then "000" ++ toString n
  else if n < 100 then "00" ++ toString n
  else if n < 1000 then "0" ++ toString n
  else toString n

/-- `Local::now().format("%Y%m%d_%H%M")` (main.rs line 130): the
minute-granularity timestamp; the seconds field is not consulted. -/
def formatTimestamp (t : LocalTime) : String :=
  pad4 t.year ++ pad2 t.month ++ pad2 t.day ++ "_" ++ pad2 t.hour ++ pad2 t.minute

/-- The `PathBuf` built by `get_output_path`: a directory (the part
`PathBuf::from(&config.output_dir)`, recovered by `.parent()`) and a
pushed final component (recovered by `.file_name()`). -/
structure OutPath where
  dir : String
  filename : String
  deriving Repr, DecidableEq

/-- The rendered path string, directory and filename joined by the path
separator. -/
def OutPath.render (p : OutPath) : String := p.dir ++ "/" ++ p.filename

/-- `get_output_path` (main.rs lines 128-137): filename is
`YYYYMMDD_HHMM.jpg` from local time, with `{output_prefix}-` prepended
exactly when the configured prefix is non-empty, pushed onto the output
directory. -/
def get_output_path (config : Config) (now : LocalTime) : OutPath :=
  let filename := formatTimestamp now ++ ".jpg"
  let filename :=
    if config.output_pfx != "" then config.output_pfx ++ "-" ++ filename
    else filename
  ⟨config.output_dir, filename⟩

/-- The remote object key built at the `put_object_with_content_type`
call (main.rs line 43):
`format!("{}pictures/{}", config.r2_project_prefix, output_path.file_name())`. -/
def uploadKey (config : Config) (p : OutPath) : String :=
  config.r2_project_pfx ++ "pictures/" ++ p.filename

/-- The fatal-error taxonomy of the run: each `expect`/`panic!` site of
`main` and its helpers, in pipeline order. -/
inductive RunError where
  | configError
  | deviceNotFound
  | deviceOpenError
  | streamOpenError
  | captureError
  | createDirError
  | persistError
  | readBackError
  | uploadError
  deriving Repr, DecidableEq

/-- Externally observable pipeline actions, recorded in order of
attempt. -/
inductive Event where
  | openCamera (index : Nat)
  | openStream
  | captureFrame
  | cropFrame
  | createDir (dir : String)
  | saveFile (path : String)
  | putObject (key : String) (contentType : String)
  deriving Repr, DecidableEq

/-- Whether an event is the object-store PUT. -/
def Event.isUpload : Event → Bool
  | .putObject _ _ => true
  | _ => false

/-- Local filesystem contents: most recent write first. -/
structure FS where
  files : List (String × List Nat)
  deriving Repr, DecidableEq

/-- Writing (or silently overwriting) a file. -/
def FS.write (fs : FS) (path : String) (bytes : List Nat) : FS :=
  ⟨(path, bytes) :: fs.files⟩

/-- The current content of a file, if present. -/
def FS.lookup (fs : FS) (path : String) : Option (List Nat) :=
  (fs.files.find? (fun e => e.1 == path)).map (fun e => e.2)

/-- Oracles for the external collaborators of one run: the enumerated
device list, success/failure of each fallible external call, the frame
the camera delivers (`none` = capture failure), the JPEG encoder, and
the current local time. -/
structure Env where
  cameras : List CameraInfo
  cameraOk : Bool
  streamOk : Bool
  frame : Option Image
  dirOk : Bool
  saveOk : Bool
  readOk : Bool
  uploadOk : Bool
  encode : Image → List Nat
  now : LocalTime

/-- `get_config` (main.rs lines 92-96): `confy::load_path` either parses
a `Config` or fails; the parsed configuration is passed through with no
further validation — in particular no crop-bounds check. -/
def get_config (loaded : Option Config) : Except RunError Config :=
  match loaded with
  | none => .error .configError
  | some cfg => .ok cfg

/-- `main` (main.rs lines 16-47): the strictly sequential pipeline.
Every `expect`/`panic!` aborts the run with the corresponding error; no
stage after a failed one executes, and nothing is undone. Returns the
run outcome, the final filesystem, and the trace of attempted external
actions. -/
def run (loaded : Option Config) (env : Env) (fs0 : FS) :
    Except RunError Unit × FS × List Event :=
  match get_config loaded with
  | .error e => (.error e, fs0, [])
  | .ok config =>
    match get_camera_index config env.cameras with
    | .error _ => (.error .deviceNotFound, fs0, [])
    | .ok sel =>
      let evs := [Event.openCamera sel.index]
      if !env.cameraOk then (.error .deviceOpenError, fs0, evs) else
      let evs := evs ++ [Event.openStream]
      if !env.streamOk then (.error .streamOpenError, fs0, evs) else
      let evs := evs ++ [Event.captureFrame]
      match env.frame with
      | none => (.error .captureError, fs0, evs)
      | some frame =>
        let image := crop_to_image frame config.crop_x config.crop_y
          config.crop_width config.crop_height
        let evs := evs ++ [Event.cropFrame]
        let outPath := get_output_path config env.now
        let evs := evs ++ [Event.createDir outPath.dir]
        if !env.dirOk then (.error .createDirError, fs0, evs) else
        let evs := evs ++ [Event.saveFile (OutPath.render outPath)]
        if !env.saveOk then (.error .persistError, fs0, evs) else
        let fs1 := fs0.write (OutPath.render outPath) (env.encode image)
        if !env.readOk then (.error .readBackError, fs1, evs) else
        let evs := evs ++ [Event.putObject (uploadKey config outPath) "image/jpeg"]
        if !env.uploadOk then (.error .uploadError, fs1, evs) else
        (.ok (), fs1, evs)

/-! ### Helper lemmas -/

/-- An empty pattern occurs in every haystack. -/
lemma subAt_nil (hay : List Char) : subAt [] hay = true := by
  cases hay <;> simp [subAt, leadSeg]

/-- With an empty configured identifier, every device matches. -/
lemma matchesId_of_empty_id (config : Config) (hcid : config.camera_id = "")
    (c : CameraInfo) : matchesId config c = true := by
  have hdata : (lowerStr config.camera_id).data = [] := by
    rw [hcid]; rfl
  simp [matchesId, strContains, hdata, subAt_nil]

/-- The scan returns the head of the matching suffix when everything
before it fails the test. -/
lemma findMatch_append (config : Config) (pre : List CameraInfo)
    (c : CameraInfo) (post : List CameraInfo)
    (hpre : ∀ d ∈ pre, matchesId config d = false)
    (hc : matchesId config c = true) :
    findMatch config (pre ++ c :: post) = some c := by
  induction pre with
  | nil => simp [findMatch, hc]
  | cons d ds ih =>
    have hd : matchesId config d = false := hpre d (by simp)
    simp only [List.cons_append, findMatch, hd]
    simp only [Bool.false_eq_true, if_false]
    exact ih (fun e he => hpre e (by simp [he]))

/-- The scan finds nothing when no device matches. -/
lemma findMatch_eq_none (config : Config) (cameras : List CameraInfo)
    (h : ∀ c ∈ cameras, matchesId config c = false) :
    findMatch config cameras = none := by
  induction cameras with
  | nil => rfl
  | cons c rest ih =>
    have hc : matchesId config c = false := h c (by simp)
    simp only [findMatch, hc, Bool.false_eq_true, if_false]
    exact ih (fun d hd => h d (by simp [hd]))

/-! ### Claim theorems -/

/-- Claim C1: device selection scans the enumerated devices in order and
returns the index of the first device whose metadata string contains the
configured identifier as a case-insensitive substring; in particular a
uniquely matching device's index is returned. Stated by decomposing the
enumeration as `pre ++ c :: post` with every device before `c` failing
the match. -/
theorem select_returns_first_match (config : Config) (pre : List CameraInfo)
    (c : CameraInfo) (post : List CameraInfo)
    (hpre : ∀ d ∈ pre, matchesId config d = false)
    (hc : matchesId config c = true) :
    get_camera_index config (pre ++ c :: post) = .ok ⟨c.index, false⟩ := by
  simp [get_camera_index, findMatch_append config pre c post hpre hc]

def camA : CameraInfo := ⟨0, "Integrated Camera", "/dev/video0 integrated"⟩

def camB : CameraInfo := ⟨1, "USB Camera 2.0", "USB Camera 2.0 usb-0000:00:14.0-1"⟩

/-- Witness for C1: with identifier "usb", the second of two devices is
the unique (hence first) match and its stored index 1 is returned. -/
theorem select_returns_first_match_witness :
    get_camera_index { defaultConfig with camera_id := "usb" } [camA, camB]
      = .ok ⟨1, false⟩ :=
  select_returns_first_match { defaultConfig with camera_id := "usb" }
    [camA] camB [] (by decide) (by decide)

/-- Claim C2: when no device's metadata matches the configured identifier
and `no_default_camera` is true, the run aborts with DeviceNotFound: the
filesystem is untouched and no later pipeline action (camera open, stream
open, capture, crop, directory creation, save, PUT) is attempted. -/
theorem strict_no_match_aborts (config : Config) (env : Env) (fs0 : FS)
    (hnm : ∀ c ∈ env.cameras, matchesId config c = false)
    (hstrict : config.no_default_camera = true) :
    run (some config) env fs0 = (.error .deviceNotFound, fs0, []) := by
  simp [run, get_config, get_camera_index,
    findMatch_eq_none config env.cameras hnm, hstrict]

def frameW : Image := ⟨640, 480, fun i j => 640 * j + i⟩

def envNoMatch : Env :=
  ⟨[camA, camB], true, true, some frameW, true, true, true, true,
    fun _ => [7], ⟨2024, 6, 15, 9, 30, 0⟩⟩

def cfgStrict : Config := { defaultConfig with camera_id := "plantcam9" }

/-- Witness for C2: identifier "plantcam9" matches neither enumerated
device and strict mode is on, so the run stops at selection with an
empty action trace. -/
theorem strict_no_match_aborts_witness :
    run (some cfgStrict) envNoMatch ⟨[]⟩ = (.error .deviceNotFound, ⟨[]⟩, []) :=
  strict_no_match_aborts cfgStrict envNoMatch ⟨[]⟩ (by decide) (by decide)

/-- Claim C5: when no device matches and `no_default_camera` is false,
selection returns index 0 together with the warning (the `warned` flag),
with no requirement that the device list be non-empty. -/
theorem lenient_no_match_falls_back (config : Config) (cameras : List CameraInfo)
    (hnm : ∀ c ∈ cameras, matchesId config c = false)
    (hlenient : config.no_default_camera = false) :
    get_camera_index config cameras = .ok ⟨0, true⟩ := by
  simp [get_camera_index, findMatch_eq_none config cameras hnm, hlenient]

/-- Witness for C5: with strict mode off and an empty enumeration,
selection still returns index 0 with the warning flag set. -/
theorem lenient_no_match_falls_back_witness :
    get_camera_index { cfgStrict with no_default_camera := false } []
      = .ok ⟨0, true⟩ :=
  lenient_no_match_falls_back { cfgStrict with no_default_camera := false } []
    (by decide) (by decide)

/-- Claim C9: with an empty configured identifier every device matches,
so on any non-empty enumeration selection returns the first device's
stored index without warning or failure, and selection can only fail
(in strict mode) when zero devices were enumerated. -/
theorem empty_id_selects_head (config : Config) (hcid : config.camera_id = "") :
    (∀ (c : CameraInfo) (rest : List CameraInfo),
        get_camera_index config (c :: rest) = .ok ⟨c.index, false⟩) ∧
    (∀ (cameras : List CameraInfo) (e : SelectError),
        get_camera_index config cameras = .error e → cameras = []) := by
  constructor
  · intro c rest
    simp [get_camera_index, findMatch, matchesId_of_empty_id config hcid c]
  · intro cameras e herr
    cases cameras with
    | nil => rfl
    | cons c rest =>
      rw [get_camera_index] at herr
      simp [findMatch, matchesId_of_empty_id config hcid c] at herr

/-- Witness for C9: with the default (empty) identifier, a two-device
enumeration selects the head's index 0, and the strict-failure
implication holds at a concrete non-empty list. -/
theorem empty_id_selects_head_witness :
    get_camera_index defaultConfig [camA, camB] = .ok ⟨0, false⟩ ∧
    (get_camera_index defaultConfig [camB] = .error (.deviceNotFound "") →
      [camB] = ([] : List CameraInfo)) :=
  ⟨(empty_id_selects_head defaultConfig rfl).1 camA [camB],
   (empty_id_selects_head defaultConfig rfl).2 [camB] (.deviceNotFound "")⟩

/-- Claim C4: for a crop rectangle satisfying `x + w ≤ frame.width` and
`y + h ≤ frame.height`, the crop output has dimensions exactly `(w, h)`
and its pixel `(i, j)` equals the source pixel `(x + i, y + j)` for all
`i < w`, `j < h` — a pure region extraction, no resampling. -/
theorem crop_in_bounds_exact (frame : Image) (x y w h : Nat)
    (hx : x + w ≤ frame.width) (hy : y + h ≤ frame.height) :
    (crop_to_image frame x y w h).width = w ∧
    (crop_to_image frame x y w h).height = h ∧
    ∀ i j, i < w → j < h →
      (crop_to_image frame x y w h).pixel i j = frame.pixel (x + i) (y + j) := by
  have hmx : min x frame.width = x := by omega
  have hmy : min y frame.height = y := by omega
  have hmw : min w (frame.width - x) = w := by omega
  have hmh : min h (frame.height - y) = h := by omega
  refine ⟨?_, ?_, ?_⟩ <;>
    simp [crop_to_image, crop_dimms, hmx, hmy, hmw, hmh]

/-- Witness for C4: cropping `(2, 3, 4, 5)` from a 640×480 frame yields
width 4 and reads the source pixel at the translated coordinates. -/
theorem crop_in_bounds_exact_witness :
    (crop_to_image frameW 2 3 4 5).width = 4 ∧
    (crop_to_image frameW 2 3 4 5).pixel 1 2 = frameW.pixel (2 + 1) (3 + 2) :=
  ⟨(crop_in_bounds_exact frameW 2 3 4 5 (by decide) (by decide)).1,
   (crop_in_bounds_exact frameW 2 3 4 5 (by decide) (by decide)).2.2 1 2
     (by decide) (by decide)⟩

/-- Claim C10: the crop operation is total for every rectangle — it never
fails; out-of-range coordinates are clamped to the frame, so the output
dimensions are `min w (width - min x width)` by
`min h (height - min y height)` rather than the requested `(w, h)`. -/
theorem crop_total_clamps (frame : Image) (x y w h : Nat) :
    (crop_to_image frame x y w h).width
        = min w (frame.width - min x frame.width) ∧
    (crop_to_image frame x y w h).height
        = min h (frame.height - min y frame.height) := by
  simp [crop_to_image, crop_dimms]

/-- Claim C6: the built output path is
`{output_dir}/{output_pfx}-YYYYMMDD_HHMM.jpg`, the prefix part present
exactly when a prefix is configured, at minute granularity; hence any two
build times in the same calendar minute yield the identical path. -/
theorem output_path_format_minute_idem (config : Config) (t1 t2 : LocalTime)
    (hy : t1.year = t2.year) (hmo : t1.month = t2.month)
    (hd : t1.day = t2.day) (hh : t1.hour = t2.hour)
    (hmi : t1.minute = t2.minute) :
    OutPath.render (get_output_path config t1) =
      (if config.output_pfx != "" then
        config.output_dir ++ "/"
          ++ (config.output_pfx ++ "-" ++ (formatTimestamp t1 ++ ".jpg"))
      else
        config.output_dir ++ "/" ++ (formatTimestamp t1 ++ ".jpg")) ∧
    get_output_path config t1 = get_output_path config t2 := by
  constructor
  · cases hcase : (config.output_pfx != "") <;>
      simp [get_output_path, OutPath.render, hcase]
  · simp [get_output_path, formatTimestamp, hy, hmo, hd, hh, hmi]

def cfgCam1 : Config := { defaultConfig with output_pfx := "cam1" }

/-- Witness for C6: build times 12:34:05 and 12:34:55 with prefix "cam1"
yield the same path, namely `pictures/cam1-20240101_1234.jpg`. -/
theorem output_path_format_minute_idem_witness :
    get_output_path cfgCam1 ⟨2024, 1, 1, 12, 34, 5⟩
        = get_output_path cfgCam1 ⟨2024, 1, 1, 12, 34, 55⟩ ∧
    OutPath.render (get_output_path cfgCam1 ⟨2024, 1, 1, 12, 34, 5⟩)
        = "pictures/cam1-20240101_1234.jpg" :=
  ⟨(output_path_format_minute_idem cfgCam1 ⟨2024, 1, 1, 12, 34, 5⟩
      ⟨2024, 1, 1, 12, 34, 55⟩ rfl rfl rfl rfl rfl).2,
   by decide⟩

/-- Claim C7: whenever the run reaches the publish step (selection and
every earlier external call succeeded), the trace contains exactly one
upload action, a PUT whose key is the configured project prefix followed
by `pictures/` followed by the local file's basename taken verbatim, with
content type `image/jpeg`. -/
theorem publish_single_put_key (config : Config) (env : Env) (fs0 : FS)
    (s : Selection) (hsel : get_camera_index config env.cameras = .ok s)
    (hcam : env.cameraOk = true) (hstr : env.streamOk = true)
    (f : Image) (hframe : env.frame = some f)
    (hdir : env.dirOk = true) (hsave : env.saveOk = true)
    (hread : env.readOk = true) :
    (run (some config) env fs0).2.2.filter Event.isUpload =
      [Event.putObject
        (config.r2_project_pfx ++ "pictures/"
          ++ (get_output_path config env.now).filename)
        "image/jpeg"] := by
  cases hup : env.uploadOk <;>
    simp [run, get_config, hsel, hcam, hstr, hframe, hdir, hsave, hread, hup,
      uploadKey, Event.isUpload]

def cfgUsb : Config := { defaultConfig with camera_id := "usb" }

def envOkay : Env :=
  ⟨[camA, camB], true, true, some frameW, true, true, true, true,
    fun _ => [7], ⟨2024, 6, 15, 9, 30, 0⟩⟩

/-- Witness for C7: a fully successful run uploads exactly once, under
key `plant-cam/pictures/20240615_0930.jpg` with content type
`image/jpeg`. -/
theorem publish_single_put_key_witness :
    (run (some cfgUsb) envOkay ⟨[]⟩).2.2.filter Event.isUpload =
      [Event.putObject
        (cfgUsb.r2_project_pfx ++ "pictures/"
          ++ (get_output_path cfgUsb envOkay.now).filename)
        "image/jpeg"] :=
  publish_single_put_key cfgUsb envOkay ⟨[]⟩ ⟨1, false⟩ rfl
    rfl rfl frameW rfl rfl rfl rfl

/-- Claim C8: if every stage up to and including the local persist
succeeds and the upload then fails, the run terminates with the upload
error while the persisted file is still on disk with exactly the bytes
the persist step wrote — no rollback, deletion or modification on the
error path. -/
theorem upload_failure_leaves_file (config : Config) (env : Env) (fs0 : FS)
    (s : Selection) (hsel : get_camera_index config env.cameras = .ok s)
    (hcam : env.cameraOk = true) (hstr : env.streamOk = true)
    (f : Image) (hframe : env.frame = some f)
    (hdir : env.dirOk = true) (hsave : env.saveOk = true)
    (hread : env.readOk = true) (hup : env.uploadOk = false) :
    (run (some config) env fs0).1 = .error .uploadError ∧
    FS.lookup (run (some config) env fs0).2.1
        (OutPath.render (get_output_path config env.now)) =
      some (env.encode (crop_to_image f config.crop_x config.crop_y
        config.crop_width config.crop_height)) := by
  constructor <;>
    simp [run, get_config, hsel, hcam, hstr, hframe, hdir, hsave, hread, hup,
      FS.lookup, FS.write, List.find?]

def envUpFail : Env := { envOkay with uploadOk := false }

/-- Witness for C8: with the upload oracle failing after a successful
persist, the concrete run ends in the upload error and the written file
is still present with its persisted bytes. -/
theorem upload_failure_leaves_file_witness :
    (run (some cfgUsb) envUpFail ⟨[]⟩).1 = .error .uploadError ∧
    FS.lookup (run (some cfgUsb) envUpFail ⟨[]⟩).2.1
        (OutPath.render (get_output_path cfgUsb envUpFail.now)) =
      some (envUpFail.encode (crop_to_image frameW cfgUsb.crop_x cfgUsb.crop_y
        cfgUsb.crop_width cfgUsb.crop_height)) :=
  upload_failure_leaves_file cfgUsb envUpFail ⟨[]⟩ ⟨1, false⟩ rfl
    rfl rfl frameW rfl rfl rfl rfl rfl

def cfgBigCrop : Config :=
  { defaultConfig with
      camera_id := "usb"
      crop_x := 100
      crop_y := 100
      crop_width := 700
      crop_height := 700 }

/-- Counterexample to C3: with the crop rectangle `(100, 100, 700, 700)`
from the claim's scenario against a 640×480 frame, configuration
resolution accepts the configuration unchanged (no validation), the run
completes successfully rather than failing fatally, a local file is
written, and the upload PUT is performed — and the image that is written
is the clamped 540×380 region, not a failure. -/
theorem crop_bounds_not_validated :
    get_config (some cfgBigCrop) = .ok cfgBigCrop ∧
    (run (some cfgBigCrop) envOkay ⟨[]⟩).1 = .ok () ∧
    FS.lookup (run (some cfgBigCrop) envOkay ⟨[]⟩).2.1
        "pictures/20240615_0930.jpg" = some [7] ∧
    (run (some cfgBigCrop) envOkay ⟨[]⟩).2.2.filter Event.isUpload =
      [Event.putObject "plant-cam/pictures/20240615_0930.jpg" "image/jpeg"] ∧
    (crop_to_image frameW 100 100 700 700).width = 540 ∧
    (crop_to_image frameW 100 100 700 700).height = 380 := by
  refine ⟨rfl, rfl, rfl, rfl, rfl, rfl⟩

/-- Amended C3: a crop rectangle violating `x + w ≤ frame.width` or
`y + h ≤ frame.height` is not rejected anywhere — configuration
resolution performs no bounds validation, and when every external call
succeeds the run completes: the crop is clamped to the frame, the local
file is written, and exactly one upload occurs. -/
theorem oversized_crop_run_completes (config : Config) (env : Env) (fs0 : FS)
    (s : Selection) (hsel : get_camera_index config env.cameras = .ok s)
    (f : Image) (hframe : env.frame = some f)
    (_hviol : f.width < config.crop_x + config.crop_width ∨
      f.height < config.crop_y + config.crop_height)
    (hcam : env.cameraOk = true) (hstr : env.streamOk = true)
    (hdir : env.dirOk = true) (hsave : env.saveOk = true)
    (hread : env.readOk = true) (hup : env.uploadOk = true) :
    get_config (some config) = .ok config ∧
    (run (some config) env fs0).1 = .ok () ∧
    FS.lookup (run (some config) env fs0).2.1
        (OutPath.render (get_output_path config env.now)) =
      some (env.encode (crop_to_image f config.crop_x config.crop_y
        config.crop_width config.crop_height)) ∧
    ((run (some config) env fs0).2.2.filter Event.isUpload).length = 1 := by
  refine ⟨rfl, ?_, ?_, ?_⟩ <;>
    simp [run, get_config, hsel, hcam, hstr, hframe, hdir, hsave, hread, hup,
      FS.lookup, FS.write, List.find?, Event.isUpload]

/-- Witness for the amended C3: the concrete oversized-crop configuration
runs to completion with the clamped image persisted and one upload. -/
theorem oversized_crop_run_completes_witness :
    get_config (some cfgBigCrop) = .ok cfgBigCrop ∧
    (run (some cfgBigCrop) envOkay ⟨[]⟩).1 = .ok () ∧
    FS.lookup (run (some cfgBigCrop) envOkay ⟨[]⟩).2.1
        (OutPath.render (get_output_path cfgBigCrop envOkay.now)) =
      some (envOkay.encode (crop_to_image frameW cfgBigCrop.crop_x
        cfgBigCrop.crop_y cfgBigCrop.crop_width cfgBigCrop.crop_height)) ∧
    ((run (some cfgBigCrop) envOkay ⟨[]⟩).2.2.filter Event.isUpload).length = 1 :=
  oversized_crop_run_completes cfgBigCrop envOkay ⟨[]⟩ ⟨1, false⟩ rfl
    frameW rfl (by decide) rfl rfl rfl rfl rfl rfl
